import Mathlib

/-!
Verification of the authentication & permission-evaluation core of the
node-backend repository: a shallow embedding of `src/utils/jwt.ts`,
`src/utils/permissions.ts`, `src/middlewares/auth.middleware.ts` and
`src/middlewares/permission.middleware.ts`, together with theorems about
the properties their specification states.

Modelling conventions:
- JavaScript truthiness is modelled explicitly: an empty string is falsy,
  `undefined` (modelled as `Option.none`) is falsy, and an array is always
  truthy, even when empty.
- The external `jsonwebtoken` library is modelled symbolically: a signed
  token records the algorithm, the signing secret and the claims; signature
  verification is equality of secrets (the standard symbolic model of an
  unforgeable MAC).  In the library, `TokenExpiredError` and
  `NotBeforeError` are subclasses of `JsonWebTokenError`, which the model
  records in the `instanceof` predicates.
- The external `ms` library is modelled for the numeric-with-unit duration
  strings the application uses ("15m", "7d", "1s", ...).
- Timestamps are natural numbers (milliseconds); `moment` date formatting
  is abstracted to the numeric timestamp it formats.
- The Mongo `Role.find` call is modelled by a list of role records plus a
  boolean `lookupFails` that makes the query reject, exercising the
  `catch` branch of `hasPermission`.
-/

namespace NodeBackend

/-- Decidable equality for `Except` results, so concrete runs of the codec
can be checked by `decide`. -/
instance {ε α : Type} [DecidableEq ε] [DecidableEq α] : DecidableEq (Except ε α) := fun a b =>
  match a, b with
  | .error x, .error y =>
    if h : x = y then isTrue (congrArg Except.error h)
    else isFalse (fun hh => h (Except.error.inj hh))
  | .error _, .ok _ => isFalse (fun hh => Except.noConfusion hh)
  | .ok _, .error _ => isFalse (fun hh => Except.noConfusion hh)
  | .ok x, .ok y =>
    if h : x = y then isTrue (congrArg Except.ok h)
    else isFalse (fun hh => h (Except.ok.inj hh))

/-! ## String primitives

The JS string operations are modelled structurally over the character
list, so that every definition evaluates by kernel reduction. -/

/-- Whether a string is empty. -/
def strIsEmpty (s : String) : Bool := s.toList.isEmpty

/-- `c.toUpperCase()` for the ASCII permission alphabet. -/
def jsToUpper (s : String) : String := String.mk (s.toList.map Char.toUpper)

/-- JS whitespace for `trim` (the ASCII part). -/
def isJsSpace (c : Char) : Bool := c = ' ' || c = '\t' || c = '\n' || c = '\r'

/-- `s.trim()`: strip whitespace from both ends. -/
def jsTrim (s : String) : String :=
  String.mk (((s.toList.dropWhile isJsSpace).reverse.dropWhile isJsSpace).reverse)

/-- `s.split(' ')` splits at every single space, keeping empty segments. -/
def jsSplitSpaceAux : List Char → List Char → List String
  | acc, [] => [String.mk acc.reverse]
  | acc, c :: cs =>
    if c = ' ' then String.mk acc.reverse :: jsSplitSpaceAux [] cs
    else jsSplitSpaceAux (c :: acc) cs

/-- `s.split(' ')`. -/
def jsSplitSpace (s : String) : List String := jsSplitSpaceAux [] s.toList

/-! ## JavaScript truthiness helpers -/

/-- JS truthiness for a string: `!s` is true exactly when `s` is empty. -/
def jsFalsyStr (s : String) : Bool := strIsEmpty s

/-- JS truthiness for a possibly-undefined string. -/
def jsFalsyOptStr : Option String → Bool
  | none => true
  | some s => strIsEmpty s

/-- JS truthiness for an array value: arrays are always truthy, even `[]`. -/
def jsFalsyList (_l : List String) : Bool := false

/-- JS truthiness for a possibly-undefined array: only `undefined` is falsy. -/
def jsFalsyOptList : Option (List String) → Bool
  | none => true
  | some _ => false

/-! ## Data model (`jwt-payload.interface.ts`, `role.model`) -/

/-- `JwtPayload` from `src/interfaces/jwt-payload.interface.ts`:
`{user_id: string, email?: string, role: string[]}`. -/
structure JwtPayload where
  user_id : String
  email : Option String
  role : List String
deriving DecidableEq, Repr

/-- A persisted role record: `{code, permissions, active}` as used by the
permission resolver's `Role.find` query. -/
structure Role where
  code : String
  permissions : List String
  active : Bool
deriving DecidableEq, Repr

/-- `JwtError` from `src/utils/jwt.ts`: an `Error` carrying a `code`. -/
structure JwtError where
  message : String
  code : String
deriving DecidableEq, Repr

/-! ## Configuration (`process.env`) -/

/-- The four environment settings the token codec reads. `none` models an
unset variable; the code also treats an empty string as missing (`!secret`). -/
structure Env where
  jwt_secret : Option String
  jwt_refresh_secret : Option String
  access_expires_in : Option String
  refresh_expires_in : Option String
deriving DecidableEq, Repr

/-- `getJwtSecret` from `src/utils/jwt.ts` lines 14-20. -/
def getJwtSecret (env : Env) : Except JwtError String :=
  match env.jwt_secret with
  | none => .error ⟨"JWT_SECRET is not configured", "MISSING_SECRET"⟩
  | some s =>
    if strIsEmpty s then .error ⟨"JWT_SECRET is not configured", "MISSING_SECRET"⟩
    else .ok s

/-- `getJwtRefreshSecret` from `src/utils/jwt.ts` lines 22-28. -/
def getJwtRefreshSecret (env : Env) : Except JwtError String :=
  match env.jwt_refresh_secret with
  | none => .error ⟨"JWT_REFRESH_SECRET is not configured", "MISSING_REFRESH_SECRET"⟩
  | some s =>
    if strIsEmpty s then .error ⟨"JWT_REFRESH_SECRET is not configured", "MISSING_REFRESH_SECRET"⟩
    else .ok s

/-- The two token kinds of `getTokenExpiration`. -/
inductive TokenKind
  | access
  | refresh
deriving DecidableEq, Repr

/-- `getTokenExpiration` from `src/utils/jwt.ts` lines 30-43. -/
def getTokenExpiration (env : Env) (kind : TokenKind) : Except JwtError String :=
  let expiresIn := match kind with
    | .access => env.access_expires_in
    | .refresh => env.refresh_expires_in
  let name := match kind with
    | .access => "ACCESS"
    | .refresh => "REFRESH"
  match expiresIn with
  | none => .error ⟨name ++ "_EXPIRES_IN is not configured", "MISSING_EXPIRATION"⟩
  | some s =>
    if strIsEmpty s then .error ⟨name ++ "_EXPIRES_IN is not configured", "MISSING_EXPIRATION"⟩
    else .ok s

/-! ## The `ms` duration library (external dependency) -/

/-- Milliseconds per unit suffix recognised by the `ms` npm package
(for the plain short forms the application uses). -/
def msUnitFactor : String → Option Nat
  | "" => some 1
  | "ms" => some 1
  | "s" => some 1000
  | "m" => some 60000
  | "h" => some 3600000
  | "d" => some 86400000
  | "w" => some 604800000
  | _ => none

/-- The numeric value of a decimal digit string. -/
def digitsToNat (cs : List Char) : Nat :=
  cs.foldl (fun n c => n * 10 + (c.toNat - 48)) 0

/-- Model of `ms(str)` from the `ms` npm package for the plain
`<digits><unit>` forms used by this application ("15m", "7d", "1s", a bare
millisecond count); `none` models the `undefined` it returns on an
unrecognised format. -/
def msParse (s : String) : Option Nat :=
  let cs := s.toList
  let digits := cs.takeWhile Char.isDigit
  let unit := String.mk (cs.dropWhile Char.isDigit)
  if digits.isEmpty then none
  else (msUnitFactor unit).map (fun f => digitsToNat digits * f)

/-- `calculateExpiry` from `src/utils/jwt.ts` lines 45-57.  `ms` returning
`undefined` or `0` is falsy, so both raise; the inner `JwtError` thrown for
an invalid format is itself re-caught by the surrounding `catch` and
re-thrown as `EXPIRY_CALCULATION_ERROR`.  The `moment` formatting of
`now + milliseconds` is abstracted to that timestamp. -/
def calculateExpiry (expiresIn : String) (now : Nat) : Except JwtError Nat :=
  match msParse expiresIn with
  | none => .error ⟨"Failed to calculate token expiry", "EXPIRY_CALCULATION_ERROR"⟩
  | some d =>
    if d = 0 then .error ⟨"Failed to calculate token expiry", "EXPIRY_CALCULATION_ERROR"⟩
    else .ok (now + d)

/-! ## The `jsonwebtoken` library (external dependency), symbolic model -/

/-- The two HMAC algorithms the codec uses. -/
inductive Alg
  | HS256
  | HS512
deriving DecidableEq, Repr

/-- The claims carried by a decoded token.  A forged token may lack
`user_id` or `role`, hence the `Option`s; tokens produced by `jwt.sign`
always carry them. -/
structure Claims where
  user_id : Option String
  email : Option String
  role : Option (List String)
  exp : Nat
deriving DecidableEq, Repr

/-- A JWT string, symbolically: either a structurally valid signed token
(recording algorithm, signing secret and claims) or garbage. -/
inductive TokenStr
  | malformed (s : String)
  | signed (alg : Alg) (secret : String) (claims : Claims)
deriving DecidableEq, Repr

/-- Whether the underlying string is empty (`!token`); a signed JWT string
is never empty. -/
def TokenStr.isEmptyStr : TokenStr → Bool
  | .malformed s => strIsEmpty s
  | .signed _ _ _ => false

/-- The errors `jwt.verify` throws.  In the `jsonwebtoken` library,
`TokenExpiredError` and `NotBeforeError` are subclasses of
`JsonWebTokenError`. -/
inductive JsLibError
  | jsonWebTokenError (message : String)
  | tokenExpiredError
  | notBeforeError
deriving DecidableEq, Repr

/-- The library error's `message` property. -/
def JsLibError.errMessage : JsLibError → String
  | .jsonWebTokenError m => m
  | .tokenExpiredError => "jwt expired"
  | .notBeforeError => "jwt not active"

/-- `error instanceof jwt.JsonWebTokenError`: true for every library error,
because `TokenExpiredError` and `NotBeforeError` extend `JsonWebTokenError`. -/
def JsLibError.isJsonWebTokenError : JsLibError → Bool
  | _ => true

/-- `error instanceof jwt.TokenExpiredError`. -/
def JsLibError.isTokenExpiredError : JsLibError → Bool
  | .tokenExpiredError => true
  | _ => false

/-- `error instanceof jwt.NotBeforeError`. -/
def JsLibError.isNotBeforeError : JsLibError → Bool
  | .notBeforeError => true
  | _ => false

/-- Model of `jwt.sign(payload, secret, {expiresIn, algorithm})`: parses
`expiresIn` with `ms` (a plain `Error`, i.e. `none`, on a bad format) and
produces a signed token whose claims are the payload plus `exp = now + d`.
All tokens issued by the source carry the full payload. -/
def jwtSignLib (payload : JwtPayload) (secret : String) (expiresIn : String)
    (alg : Alg) (now : Nat) : Option TokenStr :=
  (msParse expiresIn).map fun d =>
    .signed alg secret
      { user_id := some payload.user_id
        email := payload.email
        role := some payload.role
        exp := now + d }

/-- Model of `jwt.verify(token, secret, {algorithms})`: rejects a malformed
string, then a header algorithm outside the allowed list, then a bad
signature, then an expired token (`now ≥ exp`), in the library's order. -/
def jwtVerifyLib (token : TokenStr) (secret : String) (algorithms : List Alg)
    (now : Nat) : Except JsLibError Claims :=
  match token with
  | .malformed _ => .error (.jsonWebTokenError "jwt malformed")
  | .signed alg sec claims =>
    if !(algorithms.contains alg) then .error (.jsonWebTokenError "invalid algorithm")
    else if sec ≠ secret then .error (.jsonWebTokenError "invalid signature")
    else if claims.exp ≤ now then .error .tokenExpiredError
    else .ok claims

/-! ## Token codec (`src/utils/jwt.ts`) -/

/-- The `TokenResponse` of `generateToken`; the two `token_expiry` fields
abstract the formatted timestamp `now + duration`. -/
structure TokenResponse where
  access_token : TokenStr
  refresh_token : TokenStr
  token_expiry : Nat
  refresh_token_expiry : Nat
deriving DecidableEq, Repr

/-- Lift a `jwt.sign` result into the codec's error type: a library throw
(not a `JwtError`) is wrapped by `generateToken`'s catch into
`TOKEN_GENERATION_ERROR`. -/
def signOrWrap (o : Option TokenStr) : Except JwtError TokenStr :=
  match o with
  | some t => .ok t
  | none => .error ⟨"Failed to generate token: sign error", "TOKEN_GENERATION_ERROR"⟩

/-- `generateToken` from `src/utils/jwt.ts` lines 59-95.  Note the payload
guard `!payload.user_id || !payload.role`: the `role` array is always
truthy in JS (even `[]`), so only an empty `user_id` can trip it for typed
payloads. -/
def generateToken (env : Env) (now : Nat) (payload : JwtPayload) :
    Except JwtError TokenResponse :=
  if jsFalsyStr payload.user_id || jsFalsyList payload.role then
    .error ⟨"Invalid payload: user_id and role are required", "INVALID_PAYLOAD"⟩
  else do
    let accessExpiresIn ← getTokenExpiration env .access
    let refreshExpiresIn ← getTokenExpiration env .refresh
    let jwtSecret ← getJwtSecret env
    let jwtRefreshSecret ← getJwtRefreshSecret env
    let access_token ← signOrWrap (jwtSignLib payload jwtSecret accessExpiresIn .HS512 now)
    let refresh_token ← signOrWrap (jwtSignLib payload jwtRefreshSecret refreshExpiresIn .HS256 now)
    let token_expiry ← calculateExpiry accessExpiresIn now
    let refresh_token_expiry ← calculateExpiry refreshExpiresIn now
    return { access_token, refresh_token, token_expiry, refresh_token_expiry }

/-- `verifyToken` from `src/utils/jwt.ts` lines 97-142.  The catch chain
tests `instanceof jwt.JsonWebTokenError` FIRST; since `TokenExpiredError`
and `NotBeforeError` are its subclasses, the later branches are
unreachable and every library error maps to `INVALID_TOKEN`. -/
def verifyToken (env : Env) (now : Nat) (token : TokenStr) :
    Except JwtError JwtPayload :=
  if token.isEmptyStr then .error ⟨"Token is required", "MISSING_TOKEN"⟩
  else
    match getJwtSecret env with
    | .error e => .error e
    | .ok jwtSecret =>
      match jwtVerifyLib token jwtSecret [Alg.HS512] now with
      | .ok decoded =>
        if jsFalsyOptStr decoded.user_id || jsFalsyOptList decoded.role then
          .error ⟨"Invalid token payload", "INVALID_TOKEN_PAYLOAD"⟩
        else
          .ok { user_id := decoded.user_id.getD ""
                email := decoded.email
                role := decoded.role.getD [] }
      | .error e =>
        if e.isJsonWebTokenError then
          .error ⟨"Invalid token: " ++ e.errMessage, "INVALID_TOKEN"⟩
        else if e.isTokenExpiredError then
          .error ⟨"Token has expired", "TOKEN_EXPIRED"⟩
        else if e.isNotBeforeError then
          .error ⟨"Token not active yet", "TOKEN_NOT_ACTIVE"⟩
        else
          .error ⟨"Token verification failed: " ++ e.errMessage, "VERIFICATION_ERROR"⟩

/-- `verifyRefreshToken` from `src/utils/jwt.ts` lines 144-189; same shape
as `verifyToken` with the refresh secret, `HS256`, and refresh error codes. -/
def verifyRefreshToken (env : Env) (now : Nat) (token : TokenStr) :
    Except JwtError JwtPayload :=
  if token.isEmptyStr then .error ⟨"Refresh token is required", "MISSING_REFRESH_TOKEN"⟩
  else
    match getJwtRefreshSecret env with
    | .error e => .error e
    | .ok jwtRefreshSecret =>
      match jwtVerifyLib token jwtRefreshSecret [Alg.HS256] now with
      | .ok decoded =>
        if jsFalsyOptStr decoded.user_id || jsFalsyOptList decoded.role then
          .error ⟨"Invalid refresh token payload", "INVALID_TOKEN_PAYLOAD"⟩
        else
          .ok { user_id := decoded.user_id.getD ""
                email := decoded.email
                role := decoded.role.getD [] }
      | .error e =>
        if e.isJsonWebTokenError then
          .error ⟨"Invalid refresh token: " ++ e.errMessage, "INVALID_REFRESH_TOKEN"⟩
        else if e.isTokenExpiredError then
          .error ⟨"Refresh token has expired", "REFRESH_TOKEN_EXPIRED"⟩
        else if e.isNotBeforeError then
          .error ⟨"Refresh token not active yet", "REFRESH_TOKEN_NOT_ACTIVE"⟩
        else
          .error ⟨"Refresh token verification failed: " ++ e.errMessage, "REFRESH_VERIFICATION_ERROR"⟩

/-! ## Spec-level error taxonomy -/

/-- The error kinds of the specification's taxonomy (section 7). -/
inductive SpecErrKind
  | missingToken
  | invalidToken
  | expiredToken
  | invalidPayload
  | configurationError
  | otherKind
deriving DecidableEq, Repr

/-- Map a `JwtError` code of the source onto the specification's error
kind (access and refresh variants of a code are the same kind). -/
def specErrKind (code : String) : SpecErrKind :=
  if code = "MISSING_TOKEN" ∨ code = "MISSING_REFRESH_TOKEN" then .missingToken
  else if code = "INVALID_TOKEN" ∨ code = "INVALID_REFRESH_TOKEN" then .invalidToken
  else if code = "TOKEN_EXPIRED" ∨ code = "REFRESH_TOKEN_EXPIRED" then .expiredToken
  else if code = "INVALID_PAYLOAD" ∨ code = "INVALID_TOKEN_PAYLOAD" then .invalidPayload
  else if code = "MISSING_SECRET" ∨ code = "MISSING_REFRESH_SECRET"
          ∨ code = "MISSING_EXPIRATION" then .configurationError
  else .otherKind

/-- The spec-level kind of a verification outcome: `some kind` when it
failed, `none` when it succeeded. -/
def errKindOf (r : Except JwtError JwtPayload) : Option SpecErrKind :=
  match r with
  | .error e => some (specErrKind e.code)
  | .ok _ => none

/-! ## Permission resolver (`src/utils/permissions.ts`) -/

/-- The normalisation `p.toUpperCase().trim()` applied to each permission
string and to the required permission. -/
def normalizePerm (p : String) : String := jsTrim (jsToUpper p)

/-- First-occurrence deduplication, as `[...new Set(xs)]` performs on an
array of strings (a JS `Set` iterates in insertion order). -/
def setDedupAux : List String → List String → List String
  | _, [] => []
  | seen, x :: xs =>
    if seen.contains x then setDedupAux seen xs
    else x :: setDedupAux (x :: seen) xs

/-- `[...new Set(xs)]`. -/
def setDedup (xs : List String) : List String := setDedupAux [] xs

/-- The filter of the `Role.find({code: {$in: user.role}, active: true})`
query: records whose `code` is among the user's role codes and that are
active. -/
def roleQuery (db : List Role) (codes : List String) : List Role :=
  db.filter (fun r => codes.contains r.code && r.active)

/-- `hasPermission` from `src/utils/permissions.ts` lines 5-38.  `db` is
the role collection; `lookupFails = true` makes the `Role.find` call
reject, which the surrounding `try`/`catch` converts to `false` (fail
closed).  Note `!user.role` is always false for a typed array, so the
live part of the first guard is the length check; `role.permissions || []`
is likewise always the array itself. -/
def hasPermission (db : List Role) (lookupFails : Bool) (user : JwtPayload)
    (permission : String) : Bool :=
  if user.role.length = 0 then false
  else if lookupFails then false
  else
    let roles := roleQuery db user.role
    if roles.length = 0 then false
    else
      let allPermissions := setDedup (((roles.map Role.permissions).flatten).map normalizePerm)
      allPermissions.contains (normalizePerm permission)

/-- Modelled from the spec: "fetch all Role records whose code is in
`role_codes` and whose `active` flag is true; union their `permissions`
sets (case-insensitive, normalized to uppercase, deduplicated)" — the
effective permission list of an identity, used to state the resolver's
membership property. -/
def effectivePermissions (db : List Role) (user : JwtPayload) : List String :=
  ((roleQuery db user.role).map Role.permissions).flatten.map normalizePerm

/-! ## Middlewares (`auth.middleware.ts`, `permission.middleware.ts`) -/

/-- The outcome of a middleware: a terminal error response
(`errorResponse` with a status and message) or `next()` with the request
user attached/preserved. -/
inductive GateResult
  | reject (status : Nat) (message : String)
  | proceed (user : JwtPayload)
deriving DecidableEq, Repr

/-- The HTTP status of a middleware outcome (0 for `next()`). -/
def GateResult.statusOf : GateResult → Nat
  | .reject s _ => s
  | .proceed _ => 0

/-- `authenticate` from `src/middlewares/auth.middleware.ts` lines 17-47.
`header` is the `authorization` header (`none` when absent; the empty
string is falsy and indistinguishable from absent to `!authHeader`).
`tokenOf` interprets the raw token substring as a JWT (the ambient
environment of strings); the split is JS `split(' ')`, which keeps empty
segments.  On a `JwtError` from `verifyToken` the middleware responds 401
with the error's message. -/
def authenticate (tokenOf : String → TokenStr) (env : Env) (now : Nat)
    (header : Option String) : GateResult :=
  match header with
  | none => .reject 401 "Authorization header is required"
  | some h =>
    if strIsEmpty h then .reject 401 "Authorization header is required"
    else
      let parts := jsSplitSpace h
      if parts.length ≠ 2 ∨ parts.headD "" ≠ "Bearer" then
        .reject 401 "Invalid authorization header format. Use: Bearer <token>"
      else
        match verifyToken env now (tokenOf (parts.getD 1 "")) with
        | .ok decoded => .proceed decoded
        | .error e => .reject 401 e.message

/-- `requirePermission` from `src/middlewares/permission.middleware.ts`
lines 6-33.  `reqUser` is `req.user` as left by the authentication gate.
The middleware's own `catch` (responding 500 "Permission check failed")
is unreachable for resolver faults, because `hasPermission` catches every
error internally and resolves to `false`. -/
def requirePermission (requiredPermission : String) (db : List Role)
    (lookupFails : Bool) (reqUser : Option JwtPayload) : GateResult :=
  match reqUser with
  | none => .reject 401 "Authentication required"
  | some user =>
    if hasPermission db lookupFails user requiredPermission then .proceed user
    else .reject 403 ("Access denied. Required permission: " ++ requiredPermission)

/-! ## Concrete fixtures

A fully configured environment, the specification's example identity and
role table, and small token values, used by the closed instance theorems. -/

/-- A fully configured environment. -/
def env0 : Env := ⟨some "acc-secret", some "ref-secret", some "15m", some "7d"⟩

/-- An environment in which only `JWT_SECRET` is unset. -/
def envNoSecret : Env := ⟨none, some "ref-secret", some "15m", some "7d"⟩

/-- The spec's example identity `{subject_id:"u1", role_codes:["USER"]}`. -/
def payload0 : JwtPayload := ⟨"u1", none, ["USER"]⟩

/-- The spec's example role table: role `USER` grants `USER_READ_SELF`. -/
def dbUSER : List Role := [⟨"USER", ["USER_READ_SELF", "USER_UPDATE_SELF"], true⟩]

/-- Claims of a well-formed access token for `payload0` expiring at 1000. -/
def claims0 : Claims := ⟨some "u1", none, some ["USER"], 1000⟩

/-! ## Helper lemmas -/

/-- A nonempty string is not JS-falsy. -/
theorem strIsEmpty_eq_false {s : String} (h : s ≠ "") : strIsEmpty s = false := by
  cases s with
  | mk data =>
    cases data with
    | nil => exact absurd rfl h
    | cons c cs => rfl

/-- Membership in the set-deduplication accumulator. -/
theorem mem_setDedupAux (a : String) :
    ∀ (l seen : List String), a ∈ setDedupAux seen l ↔ a ∈ l ∧ a ∉ seen := by
  intro l
  induction l with
  | nil => intro seen; simp [setDedupAux]
  | cons x xs ih =>
    intro seen
    by_cases hx : seen.contains x
    · rw [setDedupAux, if_pos hx, ih]
      have hxs : x ∈ seen := List.elem_iff.mp hx
      constructor
      · rintro ⟨hmem, hns⟩; exact ⟨.tail _ hmem, hns⟩
      · rintro ⟨hmem, hns⟩
        cases hmem with
        | head => exact absurd hxs hns
        | tail _ hmem => exact ⟨hmem, hns⟩
    · rw [setDedupAux, if_neg hx]
      have hxs : x ∉ seen := fun hm => hx (List.elem_iff.mpr hm)
      constructor
      · intro hmem
        cases hmem with
        | head => exact ⟨.head _, hxs⟩
        | tail _ hmem =>
          have := (ih (x :: seen)).mp hmem
          refine ⟨.tail _ this.1, ?_⟩
          intro hs
          exact this.2 (.tail _ hs)
      · rintro ⟨hmem, hns⟩
        cases hmem with
        | head => exact .head _
        | tail _ hmem =>
          by_cases hax : a = x
          · subst hax; exact .head _
          · refine .tail _ ((ih (x :: seen)).mpr ⟨hmem, ?_⟩)
            intro hs
            cases hs with
            | head => exact hax rfl
            | tail _ hs => exact hns hs

/-- `[...new Set(xs)]` preserves membership. -/
theorem setDedup_mem (l : List String) (a : String) : a ∈ setDedup l ↔ a ∈ l := by
  rw [setDedup, mem_setDedupAux a l []]
  simp

/-- The role query returns nothing when the identity has no role codes. -/
theorem roleQuery_nil (db : List Role) : roleQuery db [] = [] := by
  induction db with
  | nil => rfl
  | cons r t ih => simp [roleQuery, List.filter]

/-- A role lookup failure resolves to `false` (shared helper). -/
theorem hasPermission_lookup_failure (db : List Role) (user : JwtPayload)
    (P : String) : hasPermission db true user P = false := by
  simp [hasPermission]

/-- Shape of a successful `generateToken` run: both tokens carry the full
payload, the access token under `HS512` with the access secret, the
refresh token under `HS256` with the refresh secret. -/
theorem generateToken_eq (env : Env) (now : Nat) (p : JwtPayload)
    (s rs a r : String) (da dr : Nat)
    (ha : getTokenExpiration env .access = .ok a)
    (hr : getTokenExpiration env .refresh = .ok r)
    (hs : getJwtSecret env = .ok s)
    (hrs : getJwtRefreshSecret env = .ok rs)
    (hda : msParse a = some da) (hda0 : da ≠ 0)
    (hdr : msParse r = some dr) (hdr0 : dr ≠ 0)
    (hu : p.user_id ≠ "") :
    generateToken env now p = .ok
      ⟨.signed .HS512 s ⟨some p.user_id, p.email, some p.role, now + da⟩,
       .signed .HS256 rs ⟨some p.user_id, p.email, some p.role, now + dr⟩,
       now + da, now + dr⟩ := by
  simp [generateToken, jsFalsyStr, strIsEmpty_eq_false hu, jsFalsyList,
        ha, hr, hs, hrs, jwtSignLib, hda, hdr, signOrWrap,
        calculateExpiry, hda0, hdr0, Bind.bind, Except.bind,
        Functor.map, Except.map, pure, Except.pure]

/-- An unexpired, correctly signed `HS512` access token round-trips. -/
theorem verifyToken_signed_ok (env : Env) (t : Nat) (s : String)
    (p : JwtPayload) (e : Nat)
    (hs : getJwtSecret env = .ok s) (hu : p.user_id ≠ "") (ht : t < e) :
    verifyToken env t (.signed .HS512 s ⟨some p.user_id, p.email, some p.role, e⟩)
      = .ok p := by
  simp [verifyToken, TokenStr.isEmptyStr, hs, jwtVerifyLib,
        Nat.not_le.mpr ht, jsFalsyOptStr, strIsEmpty_eq_false hu, jsFalsyOptList]

/-- An unexpired, correctly signed `HS256` refresh token round-trips. -/
theorem verifyRefresh_signed_ok (env : Env) (t : Nat) (rs : String)
    (p : JwtPayload) (e : Nat)
    (hrs : getJwtRefreshSecret env = .ok rs) (hu : p.user_id ≠ "") (ht : t < e) :
    verifyRefreshToken env t (.signed .HS256 rs ⟨some p.user_id, p.email, some p.role, e⟩)
      = .ok p := by
  simp [verifyRefreshToken, TokenStr.isEmptyStr, hrs, jwtVerifyLib,
        Nat.not_le.mpr ht, jsFalsyOptStr, strIsEmpty_eq_false hu, jsFalsyOptList]

/-- Access verification rejects any non-`HS512` token, whatever its secret. -/
theorem verifyToken_wrong_alg (env : Env) (t : Nat) (s sec : String)
    (alg : Alg) (cl : Claims)
    (hs : getJwtSecret env = .ok s) (halg : alg ≠ .HS512) :
    verifyToken env t (.signed alg sec cl)
      = .error ⟨"Invalid token: invalid algorithm", "INVALID_TOKEN"⟩ := by
  cases alg with
  | HS512 => exact absurd rfl halg
  | HS256 =>
    simp [verifyToken, TokenStr.isEmptyStr, hs, jwtVerifyLib,
          JsLibError.isJsonWebTokenError, JsLibError.errMessage]

/-- Refresh verification rejects any non-`HS256` token, whatever its secret. -/
theorem verifyRefresh_wrong_alg (env : Env) (t : Nat) (rs sec : String)
    (alg : Alg) (cl : Claims)
    (hrs : getJwtRefreshSecret env = .ok rs) (halg : alg ≠ .HS256) :
    verifyRefreshToken env t (.signed alg sec cl)
      = .error ⟨"Invalid refresh token: invalid algorithm", "INVALID_REFRESH_TOKEN"⟩ := by
  cases alg with
  | HS256 => exact absurd rfl halg
  | HS512 =>
    simp [verifyRefreshToken, TokenStr.isEmptyStr, hrs, jwtVerifyLib,
          JsLibError.isJsonWebTokenError, JsLibError.errMessage]

/-- Access verification rejects an `HS512` token signed with another secret. -/
theorem verifyToken_wrong_secret (env : Env) (t : Nat) (s sec : String)
    (cl : Claims)
    (hs : getJwtSecret env = .ok s) (hsec : sec ≠ s) :
    verifyToken env t (.signed .HS512 sec cl)
      = .error ⟨"Invalid token: invalid signature", "INVALID_TOKEN"⟩ := by
  simp [verifyToken, TokenStr.isEmptyStr, hs, jwtVerifyLib, hsec,
        JsLibError.isJsonWebTokenError, JsLibError.errMessage]

/-- Refresh verification rejects an `HS256` token signed with another secret. -/
theorem verifyRefresh_wrong_secret (env : Env) (t : Nat) (rs sec : String)
    (cl : Claims)
    (hrs : getJwtRefreshSecret env = .ok rs) (hsec : sec ≠ rs) :
    verifyRefreshToken env t (.signed .HS256 sec cl)
      = .error ⟨"Invalid refresh token: invalid signature", "INVALID_REFRESH_TOKEN"⟩ := by
  simp [verifyRefreshToken, TokenStr.isEmptyStr, hrs, jwtVerifyLib, hsec,
        JsLibError.isJsonWebTokenError, JsLibError.errMessage]

/-! ## Claim theorems -/

/-- C1: For every identity and permission string P, `hasPermission(identity, P)`
returns true if and only if the lookup did not fail and the
uppercase-normalised P is a member of the union of the (normalised)
permission sets of the active `Role` records whose code is in
`identity.role_codes`; when `identity.role_codes` is empty it returns false
immediately, for every database state and even when the lookup would fail —
i.e. without performing any role lookup. -/
theorem hasPermission_matches_active_role_union (db : List Role)
    (lookupFails : Bool) (user : JwtPayload) (P : String) :
    (hasPermission db lookupFails user P = true ↔
      (lookupFails = false ∧
        (effectivePermissions db user).contains (normalizePerm P) = true))
    ∧ (user.role = [] → hasPermission db lookupFails user P = false) := by
  constructor
  · by_cases h0 : user.role.length = 0
    · have hnil : user.role = [] := List.length_eq_zero.mp h0
      simp [hasPermission, h0, effectivePermissions, hnil, roleQuery_nil]
    · cases lookupFails with
      | true => simp [hasPermission, h0]
      | false =>
        by_cases hq : roleQuery db user.role = []
        · simp [hasPermission, h0, hq, effectivePermissions]
        · have hql : (roleQuery db user.role).length ≠ 0 := by
            rw [Ne, List.length_eq_zero]; exact hq
          simp [hasPermission, h0, hql, effectivePermissions, setDedup_mem]
  · intro hnil
    simp [hasPermission, hnil]

/-- C1 witness: the resolver membership equivalence at the specification's
USER example. -/
theorem hasPermission_matches_active_role_union_witness :
    (hasPermission dbUSER false payload0 "USER_READ_SELF" = true ↔
      (false = false ∧
        (effectivePermissions dbUSER payload0).contains
          (normalizePerm "USER_READ_SELF") = true))
    ∧ (payload0.role = [] →
        hasPermission dbUSER false payload0 "USER_READ_SELF" = false) :=
  hasPermission_matches_active_role_union dbUSER false payload0 "USER_READ_SELF"

/-- C7: `hasPermission` is a total boolean function (by construction in
this model, mirroring the source's catch-all), and a failure of the role
lookup yields `false` — fail closed, never `true`. -/
theorem hasPermission_fail_closed (db : List Role) (user : JwtPayload)
    (P : String) : hasPermission db true user P = false :=
  hasPermission_lookup_failure db user P

/-- C8 counterexample: with an identity attached, a role-lookup fault is
surfaced as a 403 response naming the required permission — not as a 500
response, refuting the claim at this concrete input. -/
theorem lookup_fault_gives_403_cex :
    requirePermission "USER_READ" [] true (some payload0)
      = .reject 403 "Access denied. Required permission: USER_READ" ∧
    (requirePermission "USER_READ" [] true (some payload0)).statusOf = 403 := by
  decide

/-- C8 amended: for every request with an attached identity, a failure of
the role lookup is absorbed inside the resolver (fail closed) and surfaced
as a 403 response naming the required permission — never as a silent
allow; the middleware's own 500 branch is unreachable for resolver faults
because `hasPermission` catches every error internally. -/
theorem lookup_fault_surfaces_as_forbidden (required : String)
    (db : List Role) (user : JwtPayload) :
    requirePermission required db true (some user)
      = .reject 403 ("Access denied. Required permission: " ++ required) := by
  simp [requirePermission, hasPermission_lookup_failure]

/-- C3 (claim right, code wrong): a correctly signed, past-expiry access
token fails with `INVALID_TOKEN` ("Invalid token: jwt expired"), not with
the distinct `TOKEN_EXPIRED`: the catch tests `instanceof JsonWebTokenError`
first, and `TokenExpiredError` is its subclass, so the expired branch is
dead code. -/
theorem expired_token_yields_invalid_token_cex :
    verifyToken env0 2000 (.signed .HS512 "acc-secret" claims0)
      = .error ⟨"Invalid token: jwt expired", "INVALID_TOKEN"⟩ ∧
    errKindOf (verifyToken env0 2000 (.signed .HS512 "acc-secret" claims0))
      = some .invalidToken := by
  decide

/-- C4 (claim right, code wrong): issuance with an empty `role` array
succeeds and produces a token pair, because `!payload.role` is false for
an (always truthy) array; only an empty `user_id` trips the
`INVALID_PAYLOAD` guard. -/
theorem issue_empty_roles_succeeds_cex :
    generateToken env0 0 ⟨"u1", none, []⟩ = .ok
      ⟨.signed .HS512 "acc-secret" ⟨some "u1", none, some [], 900000⟩,
       .signed .HS256 "ref-secret" ⟨some "u1", none, some [], 604800000⟩,
       900000, 604800000⟩ ∧
    generateToken env0 0 ⟨"", none, ["USER"]⟩
      = .error ⟨"Invalid payload: user_id and role are required", "INVALID_PAYLOAD"⟩ := by
  decide

/-- C2: under full configuration (valid secrets and durations) and a valid
identity, the access token round-trips before expiry. -/
theorem access_token_round_trip (env : Env) (p : JwtPayload) (now t : Nat)
    (s rs a r : String) (da dr : Nat)
    (ha : getTokenExpiration env .access = .ok a)
    (hr : getTokenExpiration env .refresh = .ok r)
    (hs : getJwtSecret env = .ok s)
    (hrs : getJwtRefreshSecret env = .ok rs)
    (hda : msParse a = some da) (hda0 : da ≠ 0)
    (hdr : msParse r = some dr) (hdr0 : dr ≠ 0)
    (hu : p.user_id ≠ "") (_hrole : p.role ≠ [])
    (ht : t < now + da) :
    ∃ resp, generateToken env now p = .ok resp ∧
      verifyToken env t resp.access_token = .ok p := by
  refine ⟨_, generateToken_eq env now p s rs a r da dr ha hr hs hrs hda hda0 hdr hdr0 hu, ?_⟩
  exact verifyToken_signed_ok env t s p (now + da) hs hu ht

/-- C2 witness: the round trip at the concrete environment `env0` and the
spec's example identity, at time 0. -/
theorem access_token_round_trip_witness :
    (getTokenExpiration env0 .access = .ok "15m") ∧ (msParse "15m" = some 900000) ∧
    (payload0.user_id ≠ "") ∧ (payload0.role ≠ []) ∧ (0 < 0 + 900000) ∧
    (∃ resp, generateToken env0 0 payload0 = .ok resp ∧
      verifyToken env0 0 resp.access_token = .ok payload0) :=
  ⟨by decide, by decide, by decide, by decide, by decide,
   access_token_round_trip env0 payload0 0 0 "acc-secret" "ref-secret" "15m" "7d"
     900000 604800000 (by decide) (by decide) (by decide) (by decide) (by decide)
     (by decide) (by decide) (by decide) (by decide) (by decide) (by decide)⟩

/-- C10: under full configuration and a valid identity, the refresh token
also round-trips the full identity before its expiry, because issuance
signs the identical payload into both tokens. -/
theorem refresh_token_round_trip (env : Env) (p : JwtPayload) (now t : Nat)
    (s rs a r : String) (da dr : Nat)
    (ha : getTokenExpiration env .access = .ok a)
    (hr : getTokenExpiration env .refresh = .ok r)
    (hs : getJwtSecret env = .ok s)
    (hrs : getJwtRefreshSecret env = .ok rs)
    (hda : msParse a = some da) (hda0 : da ≠ 0)
    (hdr : msParse r = some dr) (hdr0 : dr ≠ 0)
    (hu : p.user_id ≠ "") (_hrole : p.role ≠ [])
    (ht : t < now + dr) :
    ∃ resp, generateToken env now p = .ok resp ∧
      verifyRefreshToken env t resp.refresh_token = .ok p := by
  refine ⟨_, generateToken_eq env now p s rs a r da dr ha hr hs hrs hda hda0 hdr hdr0 hu, ?_⟩
  exact verifyRefresh_signed_ok env t rs p (now + dr) hrs hu ht

/-- C10 witness: the refresh round trip at `env0` and the example
identity. -/
theorem refresh_token_round_trip_witness :
    (getJwtRefreshSecret env0 = .ok "ref-secret") ∧ (msParse "7d" = some 604800000) ∧
    (payload0.user_id ≠ "") ∧ (payload0.role ≠ []) ∧ (0 < 0 + 604800000) ∧
    (∃ resp, generateToken env0 0 payload0 = .ok resp ∧
      verifyRefreshToken env0 0 resp.refresh_token = .ok payload0) :=
  ⟨by decide, by decide, by decide, by decide, by decide,
   refresh_token_round_trip env0 payload0 0 0 "acc-secret" "ref-secret" "15m" "7d"
     900000 604800000 (by decide) (by decide) (by decide) (by decide) (by decide)
     (by decide) (by decide) (by decide) (by decide) (by decide) (by decide)⟩

/-- C5: verification pins one algorithm per token type (access: HS512,
refresh: HS256).  The refresh token of an issued pair fails `verifyAccess`
and the access token fails `verifyRefresh`, both with the spec's
`InvalidToken` kind; in general any token whose algorithm differs from the
pinned one is rejected even when its secret is the verifier's own, and an
`HS512` (resp. `HS256`) token signed with any other secret — e.g. the
refresh secret when the secrets are distinct — is rejected as well. -/
theorem algorithm_and_secret_pinning :
    (∀ env p now t s rs a r da dr,
      getTokenExpiration env .access = .ok a →
      getTokenExpiration env .refresh = .ok r →
      getJwtSecret env = .ok s →
      getJwtRefreshSecret env = .ok rs →
      msParse a = some da → da ≠ 0 → msParse r = some dr → dr ≠ 0 →
      p.user_id ≠ "" →
      ∃ resp, generateToken env now p = .ok resp ∧
        errKindOf (verifyToken env t resp.refresh_token) = some .invalidToken ∧
        errKindOf (verifyRefreshToken env t resp.access_token) = some .invalidToken) ∧
    (∀ env t s sec alg cl, getJwtSecret env = .ok s → alg ≠ .HS512 →
      errKindOf (verifyToken env t (.signed alg sec cl)) = some .invalidToken) ∧
    (∀ env t rs sec alg cl, getJwtRefreshSecret env = .ok rs → alg ≠ .HS256 →
      errKindOf (verifyRefreshToken env t (.signed alg sec cl)) = some .invalidToken) ∧
    (∀ env t s sec cl, getJwtSecret env = .ok s → sec ≠ s →
      errKindOf (verifyToken env t (.signed .HS512 sec cl)) = some .invalidToken) ∧
    (∀ env t rs sec cl, getJwtRefreshSecret env = .ok rs → sec ≠ rs →
      errKindOf (verifyRefreshToken env t (.signed .HS256 sec cl)) = some .invalidToken) := by
  refine ⟨?_, ?_, ?_, ?_, ?_⟩
  · intro env p now t s rs a r da dr ha hr hs hrs hda hda0 hdr hdr0 hu
    refine ⟨_, generateToken_eq env now p s rs a r da dr ha hr hs hrs hda hda0 hdr hdr0 hu, ?_, ?_⟩
    · show errKindOf (verifyToken env t
        (.signed .HS256 rs ⟨some p.user_id, p.email, some p.role, now + dr⟩)) = some .invalidToken
      rw [verifyToken_wrong_alg env t s rs .HS256 _ hs (by decide)]
      decide
    · show errKindOf (verifyRefreshToken env t
        (.signed .HS512 s ⟨some p.user_id, p.email, some p.role, now + da⟩)) = some .invalidToken
      rw [verifyRefresh_wrong_alg env t rs s .HS512 _ hrs (by decide)]
      decide
  · intro env t s sec alg cl hs halg
    rw [verifyToken_wrong_alg env t s sec alg cl hs halg]
    decide
  · intro env t rs sec alg cl hrs halg
    rw [verifyRefresh_wrong_alg env t rs sec alg cl hrs halg]
    decide
  · intro env t s sec cl hs hsec
    rw [verifyToken_wrong_secret env t s sec cl hs hsec]
    decide
  · intro env t rs sec cl hrs hsec
    rw [verifyRefresh_wrong_secret env t rs sec cl hrs hsec]
    decide

/-- C5 witness: each pinning conjunct at concrete tokens over `env0`. -/
theorem algorithm_and_secret_pinning_witness :
    (∃ resp, generateToken env0 0 payload0 = .ok resp ∧
      errKindOf (verifyToken env0 0 resp.refresh_token) = some .invalidToken ∧
      errKindOf (verifyRefreshToken env0 0 resp.access_token) = some .invalidToken) ∧
    errKindOf (verifyToken env0 0 (.signed .HS256 "acc-secret" claims0)) = some .invalidToken ∧
    errKindOf (verifyRefreshToken env0 0 (.signed .HS512 "ref-secret" claims0)) = some .invalidToken ∧
    errKindOf (verifyToken env0 0 (.signed .HS512 "ref-secret" claims0)) = some .invalidToken ∧
    errKindOf (verifyRefreshToken env0 0 (.signed .HS256 "acc-secret" claims0)) = some .invalidToken :=
  ⟨algorithm_and_secret_pinning.1 env0 payload0 0 0 "acc-secret" "ref-secret" "15m" "7d"
     900000 604800000 (by decide) (by decide) (by decide) (by decide) (by decide)
     (by decide) (by decide) (by decide) (by decide),
   algorithm_and_secret_pinning.2.1 env0 0 "acc-secret" "acc-secret" .HS256 claims0 (by decide) (by decide),
   algorithm_and_secret_pinning.2.2.1 env0 0 "ref-secret" "ref-secret" .HS512 claims0 (by decide) (by decide),
   algorithm_and_secret_pinning.2.2.2.1 env0 0 "acc-secret" "ref-secret" claims0 (by decide) (by decide),
   algorithm_and_secret_pinning.2.2.2.2 env0 0 "ref-secret" "acc-secret" claims0 (by decide) (by decide)⟩

/-- A two-element list with head "Bearer" is exactly `["Bearer", tok]`. -/
theorem twoPartBearer_of (parts : List String)
    (hlen : parts.length = 2) (hhead : parts.headD "" = "Bearer") :
    ∃ tok, parts = ["Bearer", tok] := by
  obtain ⟨x, y, rfl⟩ := List.length_eq_two.mp hlen
  refine ⟨y, ?_⟩
  have hx : x = "Bearer" := hhead
  rw [hx]

/-- C6: a request without an authorization header is rejected 401 with the
missing-header message; a request whose nonempty header is not exactly the
two-part shape `Bearer <token>` (as a JS `split(' ')`: wrong scheme name,
missing token, extra segments) is rejected 401 with a distinct
malformed-format message; in both cases the outcome is independent of the
token interpretation, the configuration and the clock — no verification is
attempted — and no identity is attached (the result is a rejection, not a
`proceed`). -/
theorem auth_gate_header_rejections (tokenOf tokenOf2 : String → TokenStr)
    (env env2 : Env) (now now2 : Nat) (h : String)
    (hne : h ≠ "") (hshape : ¬ ∃ tok, jsSplitSpace h = ["Bearer", tok]) :
    authenticate tokenOf env now none = .reject 401 "Authorization header is required" ∧
    authenticate tokenOf env now (some h)
      = .reject 401 "Invalid authorization header format. Use: Bearer <token>" ∧
    authenticate tokenOf env now (some h) = authenticate tokenOf2 env2 now2 (some h) ∧
    ("Authorization header is required" : String)
      ≠ "Invalid authorization header format. Use: Bearer <token>" := by
  have hcond : (jsSplitSpace h).length ≠ 2 ∨ (jsSplitSpace h).headD "" ≠ "Bearer" := by
    by_contra hc
    push_neg at hc
    exact hshape (twoPartBearer_of _ hc.1 hc.2)
  have hm : ∀ (f : String → TokenStr) (e : Env) (n : Nat),
      authenticate f e n (some h)
        = .reject 401 "Invalid authorization header format. Use: Bearer <token>" := by
    intro f e n
    rw [authenticate]
    rw [if_neg (by rw [strIsEmpty_eq_false hne]; exact Bool.false_ne_true)]
    exact if_pos hcond
  refine ⟨rfl, hm tokenOf env now, ?_, by decide⟩
  rw [hm tokenOf env now, hm tokenOf2 env2 now2]

/-- C6 witness: the two rejections at the spec's example header
`"Token abc"` (wrong scheme) and at an absent header. -/
theorem auth_gate_header_rejections_witness :
    ("Token abc" ≠ "") ∧
    (¬ ∃ tok, jsSplitSpace "Token abc" = ["Bearer", tok]) ∧
    (authenticate (fun s => TokenStr.malformed s) env0 0 none
      = .reject 401 "Authorization header is required") ∧
    (authenticate (fun s => TokenStr.malformed s) env0 0 (some "Token abc")
      = .reject 401 "Invalid authorization header format. Use: Bearer <token>") := by
  have hshape : ¬ ∃ tok, jsSplitSpace "Token abc" = ["Bearer", tok] := by
    rintro ⟨tok, ht⟩
    have he : jsSplitSpace "Token abc" = ["Token", "abc"] := by decide
    rw [he] at ht
    injection ht with h1 h2
    exact absurd h1 (by decide)
  have main := auth_gate_header_rejections (fun s => TokenStr.malformed s)
    (fun s => TokenStr.malformed s) env0 env0 0 0 "Token abc" (by decide) hshape
  exact ⟨by decide, hshape, main.1, main.2.1⟩

/-- A missing (or empty) expiry setting makes its getter fail, naming the
setting. -/
theorem getTokenExpiration_access_missing (env : Env)
    (h : jsFalsyOptStr env.access_expires_in = true) :
    getTokenExpiration env .access
      = .error ⟨"ACCESS_EXPIRES_IN is not configured", "MISSING_EXPIRATION"⟩ := by
  cases he : env.access_expires_in with
  | none => simp [getTokenExpiration, he]
  | some s =>
    rw [he] at h
    simp only [jsFalsyOptStr] at h
    simp [getTokenExpiration, he, h]

theorem getTokenExpiration_refresh_missing (env : Env)
    (h : jsFalsyOptStr env.refresh_expires_in = true) :
    getTokenExpiration env .refresh
      = .error ⟨"REFRESH_EXPIRES_IN is not configured", "MISSING_EXPIRATION"⟩ := by
  cases he : env.refresh_expires_in with
  | none => simp [getTokenExpiration, he]
  | some s =>
    rw [he] at h
    simp only [jsFalsyOptStr] at h
    simp [getTokenExpiration, he, h]

theorem getJwtSecret_missing (env : Env)
    (h : jsFalsyOptStr env.jwt_secret = true) :
    getJwtSecret env = .error ⟨"JWT_SECRET is not configured", "MISSING_SECRET"⟩ := by
  cases he : env.jwt_secret with
  | none => simp [getJwtSecret, he]
  | some s =>
    rw [he] at h
    simp only [jsFalsyOptStr] at h
    simp [getJwtSecret, he, h]

theorem getJwtRefreshSecret_missing (env : Env)
    (h : jsFalsyOptStr env.jwt_refresh_secret = true) :
    getJwtRefreshSecret env
      = .error ⟨"JWT_REFRESH_SECRET is not configured", "MISSING_REFRESH_SECRET"⟩ := by
  cases he : env.jwt_refresh_secret with
  | none => simp [getJwtRefreshSecret, he]
  | some s =>
    rw [he] at h
    simp only [jsFalsyOptStr] at h
    simp [getJwtRefreshSecret, he, h]

/-- C9 amended: all four settings are required by the codec, and `issue`
fails with the configuration error naming whichever setting is missing
(in read order: access expiry, refresh expiry, access secret, refresh
secret).  However the configuration is read lazily on every call — there is
no startup check — so a verification call with a missing access secret
also fails, per request, with the same named configuration error; the
error codes map to the spec's `ConfigurationError` kind. -/
theorem config_errors_lazy_per_call :
    (∀ env now p e, p.user_id ≠ "" →
      getTokenExpiration env .access = .error e →
      generateToken env now p = .error e) ∧
    (∀ env now p a e, p.user_id ≠ "" →
      getTokenExpiration env .access = .ok a →
      getTokenExpiration env .refresh = .error e →
      generateToken env now p = .error e) ∧
    (∀ env now p a r e, p.user_id ≠ "" →
      getTokenExpiration env .access = .ok a →
      getTokenExpiration env .refresh = .ok r →
      getJwtSecret env = .error e →
      generateToken env now p = .error e) ∧
    (∀ env now p a r s e, p.user_id ≠ "" →
      getTokenExpiration env .access = .ok a →
      getTokenExpiration env .refresh = .ok r →
      getJwtSecret env = .ok s →
      getJwtRefreshSecret env = .error e →
      generateToken env now p = .error e) ∧
    (∀ env, jsFalsyOptStr env.jwt_secret = true →
      getJwtSecret env = .error ⟨"JWT_SECRET is not configured", "MISSING_SECRET"⟩) ∧
    (∀ env, jsFalsyOptStr env.jwt_refresh_secret = true →
      getJwtRefreshSecret env
        = .error ⟨"JWT_REFRESH_SECRET is not configured", "MISSING_REFRESH_SECRET"⟩) ∧
    (∀ env t tok e, tok.isEmptyStr = false →
      getJwtSecret env = .error e →
      verifyToken env t tok = .error e) ∧
    (specErrKind "MISSING_SECRET" = .configurationError ∧
     specErrKind "MISSING_REFRESH_SECRET" = .configurationError ∧
     specErrKind "MISSING_EXPIRATION" = .configurationError) := by
  refine ⟨?_, ?_, ?_, ?_, getJwtSecret_missing, getJwtRefreshSecret_missing, ?_, by decide⟩
  · intro env now p e hu h
    simp [generateToken, jsFalsyStr, strIsEmpty_eq_false hu, jsFalsyList, h,
          Bind.bind, Except.bind]
  · intro env now p a e hu ha h
    simp [generateToken, jsFalsyStr, strIsEmpty_eq_false hu, jsFalsyList, ha, h,
          Bind.bind, Except.bind]
  · intro env now p a r e hu ha hr h
    simp [generateToken, jsFalsyStr, strIsEmpty_eq_false hu, jsFalsyList, ha, hr, h,
          Bind.bind, Except.bind]
  · intro env now p a r s e hu ha hr hs h
    simp [generateToken, jsFalsyStr, strIsEmpty_eq_false hu, jsFalsyList, ha, hr, hs, h,
          Bind.bind, Except.bind]
  · intro env t tok e hne h
    simp [verifyToken, hne, h]

/-- C9 witness: missing access expiry makes `issue` fail naming
`ACCESS_EXPIRES_IN`; a missing secret makes `verifyToken` fail naming
`JWT_SECRET`, at concrete environments. -/
theorem config_errors_lazy_per_call_witness :
    (payload0.user_id ≠ "") ∧
    (getTokenExpiration (Env.mk (some "acc-secret") (some "ref-secret") none (some "7d")) .access
      = .error ⟨"ACCESS_EXPIRES_IN is not configured", "MISSING_EXPIRATION"⟩) ∧
    (generateToken (Env.mk (some "acc-secret") (some "ref-secret") none (some "7d")) 0 payload0
      = .error ⟨"ACCESS_EXPIRES_IN is not configured", "MISSING_EXPIRATION"⟩) ∧
    (getJwtSecret envNoSecret = .error ⟨"JWT_SECRET is not configured", "MISSING_SECRET"⟩) ∧
    (verifyToken envNoSecret 0 (.signed .HS512 "acc-secret" claims0)
      = .error ⟨"JWT_SECRET is not configured", "MISSING_SECRET"⟩) :=
  ⟨by decide, by decide,
   config_errors_lazy_per_call.1 (Env.mk (some "acc-secret") (some "ref-secret") none (some "7d"))
     0 payload0 ⟨"ACCESS_EXPIRES_IN is not configured", "MISSING_EXPIRATION"⟩
     (by decide) (by decide),
   config_errors_lazy_per_call.2.2.2.2.1 envNoSecret (by decide),
   config_errors_lazy_per_call.2.2.2.2.2.2.1 envNoSecret 0
     (.signed .HS512 "acc-secret" claims0) ⟨"JWT_SECRET is not configured", "MISSING_SECRET"⟩
     (by decide) (by decide)⟩

/-- C9 counterexample: a verification call with an unset `JWT_SECRET`
surfaces the missing-configuration error as a per-request failure,
refuting "no verification call surfaces a missing-configuration error as a
per-request failure". -/
theorem verify_missing_secret_per_request_cex :
    verifyToken envNoSecret 0 (.signed .HS512 "acc-secret" claims0)
      = .error ⟨"JWT_SECRET is not configured", "MISSING_SECRET"⟩ ∧
    errKindOf (verifyToken envNoSecret 0 (.signed .HS512 "acc-secret" claims0))
      = some .configurationError := by
  decide

end NodeBackend
